import Mathlib

/-!
Shallow embedding of the systemctl2mqtt agent (package `systemctl2mqtt`,
files `systemctl2mqtt.py`, `helpers.py`, `const.py`, `type_definitions.py`)
and verification of the frozen claims about it.

Python dictionaries are modelled as insertion-ordered association lists,
Python exceptions as explicit error values, wall-clock timestamps as
integers (seconds), and Python floats as rationals (all numeric literals
exercised here are exact in both representations).  External subprocess
lookups (`systemctl show --property=MainPID`, `ps --ppid`, the journal
tail, the regular-expression engine) are passed in as function parameters,
since they are collaborators outside the embedded code.  String helpers
are implemented over `List Char` so that all definitions evaluate inside
the kernel.
-/

/-- A Python runtime exception relevant to the embedded code paths. -/
inductive PyError
  | keyError (k : String)
  | valueError (s : String)
  | indexError
deriving DecidableEq, Repr

/-- The typed application exceptions from `exceptions.py`, plus an
`untyped` constructor for Python exceptions that escape without being
wrapped into a `Systemctl2Mqtt*Exception`. -/
inductive AppError
  | events (msg : String)
  | stats (msg : String)
  | untyped (e : PyError)
deriving DecidableEq, Repr

instance [DecidableEq ε] [DecidableEq α] : DecidableEq (Except ε α) := fun x y =>
  match x, y with
  | .ok a, .ok b =>
    if h : a = b then isTrue (congrArg Except.ok h)
    else isFalse (fun hh => h (Except.ok.inj hh))
  | .error a, .error b =>
    if h : a = b then isTrue (congrArg Except.error h)
    else isFalse (fun hh => h (Except.error.inj hh))
  | .ok _, .error _ => isFalse (fun hh => Except.noConfusion hh)
  | .error _, .ok _ => isFalse (fun hh => Except.noConfusion hh)

/-- Lookup in an insertion-ordered association list (Python `d[k]` /
`d.get(k)`); keys are unique by construction of `setA`. -/
def lookupA [DecidableEq κ] (m : List (κ × α)) (k : κ) : Option α :=
  match m with
  | [] => none
  | (k', v) :: rest => if k' = k then some v else lookupA rest k

/-- Update/insert in an insertion-ordered association list (Python
`d[k] = v`): an existing key keeps its position, a new key is appended. -/
def setA [DecidableEq κ] (m : List (κ × α)) (k : κ) (v : α) : List (κ × α) :=
  match m with
  | [] => [(k, v)]
  | (k', v') :: rest => if k' = k then (k', v) :: rest else (k', v') :: setA rest k v

/-- Remove a key from an association list (the destructive part of
Python `del d[k]`; presence is checked separately by `pyDelS`). -/
def delA [DecidableEq κ] (m : List (κ × α)) (k : κ) : List (κ × α) :=
  match m with
  | [] => []
  | (k', v') :: rest => if k' = k then rest else (k', v') :: delA rest k

/-- Python `del d[k]` on a string-keyed dict: raises `KeyError` when the
key is absent. -/
def pyDelS (m : List (String × α)) (k : String) : Except PyError (List (String × α)) :=
  if (lookupA m k).isSome then .ok (delA m k) else .error (.keyError k)

/-- Character-list prefix test (auxiliary for substring containment). -/
def isPre (needle hay : List Char) : Bool :=
  match needle, hay with
  | [], _ => true
  | _ :: _, [] => false
  | c :: ns, d :: hs => c == d && isPre ns hs

/-- Character-list substring containment (auxiliary for `pyIn`). -/
def hasSubSeq (needle hay : List Char) : Bool :=
  isPre needle hay ||
    match hay with
    | [] => false
    | _ :: rest => hasSubSeq needle rest

/-- Python's substring containment `needle in hay` (both operands
strings). -/
def pyIn (needle hay : String) : Bool :=
  hasSubSeq needle.data hay.data

/-- Strip leading and trailing whitespace (Python `str.strip`). -/
def trimC (l : List Char) : List Char :=
  ((l.dropWhile Char.isWhitespace).reverse.dropWhile Char.isWhitespace).reverse

/-- Digit list to `Nat`; `none` if any character is not a decimal digit.
The empty list yields `some 0` (callers guard emptiness as Python
requires). -/
def digitsToNat? (l : List Char) : Option Nat :=
  if l.all Char.isDigit then
    some (l.foldl (fun n c => n * 10 + (c.toNat - 48)) 0)
  else none

/-- Python `int(s)` on a decimal string: optional surrounding whitespace,
optional sign, at least one digit; any other shape raises `ValueError`
(`none`). -/
def pyInt? (s : String) : Option Int :=
  match trimC s.data with
  | '-' :: rest =>
    if rest.isEmpty then none else (digitsToNat? rest).map (fun n => -(n : Int))
  | '+' :: rest =>
    if rest.isEmpty then none else (digitsToNat? rest).map (fun n => (n : Int))
  | l =>
    if l.isEmpty then none else (digitsToNat? l).map (fun n => (n : Int))

/-- Split a character list at its first `'.'`, keeping the remainder
(auxiliary for decimal parsing). -/
def splitDot (l : List Char) : List Char × Option (List Char) :=
  match l with
  | [] => ([], none)
  | '.' :: rest => ([], some rest)
  | c :: rest =>
    let (a, b) := splitDot rest
    (c :: a, b)

/-- Unsigned decimal literal `digits`, `digits.digits`, `digits.` or
`.digits` as a rational; `none` on anything else. -/
def decFrac? (l : List Char) : Option ℚ :=
  match splitDot l with
  | (a, none) =>
    if a.isEmpty then none else (digitsToNat? a).map (fun n => (n : ℚ))
  | (a, some b) =>
    if a.isEmpty && b.isEmpty then none
    else
      match digitsToNat? a, digitsToNat? b with
      | some na, some nb => some ((na : ℚ) + (nb : ℚ) / ((10 : ℚ) ^ b.length))
      | _, _ => none

/-- Python `float(s)` on the plain decimal strings produced by `top`
(optional whitespace, sign, digits, optional fraction).  Exponent, `inf`
and `nan` forms are never produced by the modelled streams.  `none`
models `ValueError`. -/
def pyFloat? (s : String) : Option ℚ :=
  match trimC s.data with
  | '-' :: rest => (decFrac? rest).map Neg.neg
  | '+' :: rest => decFrac? rest
  | l => decFrac? l

/-- ASCII lower-casing of one character (Python `str.lower` acts
per character on the ASCII strings involved here). -/
def toLowerC (c : Char) : Char :=
  if 'A' ≤ c ∧ c ≤ 'Z' then Char.ofNat (c.toNat + 32) else c

/-- `helpers.parse_top_size`: parse a size string from `top` (like
`8.5g`, `512m`, `1024k`) into kilobytes.  `s[-1]` on the empty string
raises `IndexError`, and a malformed number raises `ValueError`; both
are `none`. -/
def parse_top_size (s : String) : Option ℚ :=
  let t := (trimC s.data).map toLowerC
  match t.getLast? with
  | none => none
  | some c =>
    if ['k', 'm', 'g', 't'].contains c then
      (decFrac? t.dropLast).map (fun num =>
        if c = 'k' then num
        else if c = 'm' then num * 1024
        else if c = 'g' then num * 1024 ^ 2
        else num * 1024 ^ 3)
    else decFrac? t

/-- `INVALID_HA_TOPIC_CHARS.sub("_", s)`: replace every character
outside `[a-zA-Z0-9_-]` by an underscore. -/
def sanitizeTopicId (s : String) : String :=
  ⟨s.data.map (fun c => if c.isAlpha ∨ c.isDigit ∨ c = '_' ∨ c = '-' then c else '_')⟩

/-- Python `l[i]` with Python index semantics (negative indices count
from the end); `none` models `IndexError`. -/
def pyIdx (l : List String) (i : Int) : Option String :=
  if 0 ≤ i then l.get? i.toNat
  else l.reverse.get? ((-i).toNat - 1)


/-- The configuration fields of `Systemctl2MqttConfig` consumed by the
embedded code paths (topics, filter policy, TTL, sampling interval). -/
structure Cfg where
  haPref : String
  topicPref : String
  hostname : String
  serviceWhitelist : List String
  serviceBlacklist : List String
  destroyedServiceTtl : Int
  statsRecordSeconds : Int
deriving DecidableEq, Repr

/-- `type_definitions.ServiceEvent`.  `status` and `state` are strings at
runtime (the `Literal` annotations are not enforced by Python); the code
assigns `running`/`exited`/`failed` and `on`/`off` in the event machine,
and the census `sub` field verbatim during reload. -/
structure ServiceEvent where
  name : String
  description : String
  pid : Int
  cpids : List Int
  status : String
  state : String
deriving DecidableEq, Repr

/-- `known_event_services`: insertion-ordered dict name → ServiceEvent. -/
abbrev EventRegistry := List (String × ServiceEvent)

/-- One census row from the Service Lister (`type_definitions.SystemctlService`,
parsed from `systemctl --type=service --output=json`). -/
structure SystemctlService where
  unit : String
  load : String
  active : String
  sub : String
  description : String
deriving DecidableEq, Repr

/-- Instantaneous per-process sample (`type_definitions.PIDStats`; the
handler constructs only the `pid`/`cpu`/`memory` fields). -/
structure PStats where
  pid : Int
  cpu : ℚ
  memory : ℚ
deriving DecidableEq, Repr

/-- Per-service rollup (`type_definitions.ServiceStats`; the handler
constructs only these fields). -/
structure SStats where
  name : String
  host : String
  cpu : ℚ
  memory : ℚ
  pid_stats : List (Int × PStats)
deriving DecidableEq, Repr

/-- An MQTT payload, by provenance.  Discovery packets are represented by
the two topic strings that individualise them (`registration_topic` and
the `state_topic` they point at); no claim inspects the remaining
descriptor fields. -/
inductive Payload
  | emptyStr
  | emptyJson
  | eventJson (e : ServiceEvent)
  | statsJson (s : SStats)
  | discoveryJson (registrationTopic stateTopic : String)
deriving DecidableEq, Repr

/-- One `_mqtt_send(topic, payload, retain)` call. -/
structure Publish where
  topic : String
  payload : Payload
  retain : Bool
deriving DecidableEq, Repr

/-- `self.events_topic.format(service)`:
`{prefix}/{host}/{service}/events`. -/
def eventsTopicFor (cfg : Cfg) (service : String) : String :=
  cfg.topicPref ++ "/" ++ cfg.hostname ++ "/" ++ service ++ "/events"

/-- `self.stats_topic.format(service)`:
`{prefix}/{host}/{service}/stats`. -/
def statsTopicFor (cfg : Cfg) (service : String) : String :=
  cfg.topicPref ++ "/" ++ cfg.hostname ++ "/" ++ service ++ "/stats"

/-- `self.discovery_binary_sensor_topic.format(sid)`:
`{ha_prefix}/binary_sensor/{prefix}/{host}_{sid}/config`. -/
def binSensorConfigTopic (cfg : Cfg) (sid : String) : String :=
  cfg.haPref ++ "/binary_sensor/" ++ cfg.topicPref ++ "/" ++ cfg.hostname ++ "_" ++ sid ++ "/config"

/-- `self.discovery_sensor_topic.format(sid)`:
`{ha_prefix}/sensor/{prefix}/{host}_{sid}/config`. -/
def sensorConfigTopic (cfg : Cfg) (sid : String) : String :=
  cfg.haPref ++ "/sensor/" ++ cfg.topicPref ++ "/" ++ cfg.hostname ++ "_" ++ sid ++ "/config"

/-- The `field` column of `const.STATS_REGISTRATION_ENTRIES`, in source
order.  The other columns (label, device class, unit, icon, category)
only populate discovery payload contents, which no claim inspects. -/
def statsFields : List String :=
  ["cpu", "memory", "memory_real", "memory_real_pss", "memory_pss",
   "memory_pss_anon", "memory_pss_file", "memory_pss_dirty", "memory_pss_shmem",
   "memory_rss", "memory_shared_clean", "memory_shared_dirty",
   "memory_private_clean", "memory_private_dirty", "memory_referenced",
   "memory_anonymous", "memory_lazyfree", "memory_anon_hugepages",
   "memory_shmem_pmd_mapped", "memory_file_pmd_mapped", "memory_shared_hugetlb",
   "memory_private_hugetlb", "memory_swap", "memory_swappss", "memory_locked"]

/-- `_match_service(service, to_check)`: literal name, literal name plus
`.service`, or regular-expression match.  The regex engine
(`re.compile(to_check).match`) is an external collaborator, passed in as
`rematch pattern string`. -/
def matchService (rematch : String → String → Bool) (service toCheck : String) : Bool :=
  service == toCheck || service == toCheck ++ ".service" || rematch toCheck service

/-- `_filter_service(service)`: the whitelist `for … else return False`
loop followed by the blacklist loop. -/
def filterService (rematch : String → String → Bool) (wl bl : List String)
    (service : String) : Bool :=
  if wl.length > 0 && !(wl.any fun toCheck => matchService rematch service toCheck) then
    false
  else if bl.any fun toCheck => matchService rematch service toCheck then
    false
  else
    true

/-- The status/state computation of `_reload_services` (lines 582-593):
every branch stores the census `sub` field as status, and the branch
conditions are Python substring tests on the `active` field. -/
def reloadStatusState (active sub : String) : String × String :=
  if pyIn "active" active then (sub, "on")
  else if pyIn "inactive" active then (sub, "off")
  else if pyIn "failed" active then (sub, "off")
  else (sub, "off")

/-- The per-field discovery/data publications of `_register_service`
(lines 739-772), one sensor config plus one empty-object stats payload
per entry of `STATS_REGISTRATION_ENTRIES`. -/
def regStatsPubs (cfg : Cfg) (service : String) (fields : List String) : List Publish :=
  match fields with
  | [] => []
  | f :: rest =>
    let sTopic := sensorConfigTopic cfg (sanitizeTopicId (service ++ "_" ++ f ++ "_stats"))
    ⟨sTopic, .discoveryJson sTopic (statsTopicFor cfg service), true⟩ ::
    ⟨statsTopicFor cfg service, .emptyJson, true⟩ ::
    regStatsPubs cfg service rest

/-- `_register_service(service_entry)`: store/overwrite the entry in
`known_event_services`, publish (retained) the binary-sensor discovery
config and current event payload, then per stats field a sensor
discovery config and an empty stats payload. -/
def registerService (cfg : Cfg) (reg : EventRegistry) (e : ServiceEvent) :
    EventRegistry × List Publish :=
  let service := e.name
  let reg' := setA reg service e
  let binTopic := binSensorConfigTopic cfg (sanitizeTopicId (service ++ "_events"))
  let evTopic := eventsTopicFor cfg service
  (reg',
    ⟨binTopic, .discoveryJson binTopic evTopic, true⟩ ::
    ⟨evTopic, .eventJson e, true⟩ ::
    regStatsPubs cfg service statsFields)

/-- Result of `_reload_services`: the mutated registry, pending-destroy
map and publications, plus the Python exception (if any) that escaped
the method.  Mutations made before the exception persist, as they do on
`self` in Python. -/
structure ReloadResult where
  reg : EventRegistry
  pending : List (String × Int)
  pubs : List Publish
  err : Option PyError
deriving DecidableEq, Repr

/-- Intermediate state of the census scan of `_reload_services`. -/
structure Phase1Out where
  reg : EventRegistry
  pending : List (String × Int)
  registered : List String
  pubs : List Publish

/-- The census scan of `_reload_services` (lines 576-609): for each row
passing the filter and whose load field contains `"load"`, compute
status/state; when event monitoring is on, append to
`registered_services`, resolve pids, register, and clear any
pending-destroy entry for the service. -/
def reloadPhase1 (cfg : Cfg) (rematch : String → String → Bool) (bEvents : Bool)
    (pidLookup : String → Int) (cpidsLookup : String → List Int)
    (census : List SystemctlService) (acc : Phase1Out) : Phase1Out :=
  match census with
  | [] => acc
  | row :: rest =>
    if filterService rematch cfg.serviceWhitelist cfg.serviceBlacklist row.unit
        && pyIn "load" row.load then
      let ss := reloadStatusState row.active row.sub
      if bEvents then
        let entry : ServiceEvent :=
          { name := row.unit, description := row.description,
            pid := pidLookup row.unit, cpids := cpidsLookup row.unit,
            status := ss.1, state := ss.2 }
        let rp := registerService cfg acc.reg entry
        let pending' :=
          if (lookupA acc.pending row.unit).isSome then delA acc.pending row.unit
          else acc.pending
        reloadPhase1 cfg rematch bEvents pidLookup cpidsLookup rest
          ⟨rp.1, pending', acc.registered ++ [row.unit], acc.pubs ++ rp.2⟩
      else
        reloadPhase1 cfg rematch bEvents pidLookup cpidsLookup rest acc
    else
      reloadPhase1 cfg rematch bEvents pidLookup cpidsLookup rest acc

/-- The post-scan sweep of `_reload_services` (lines 611-618): for each
known service neither pending-destroy nor freshly registered, the source
executes `del self.pending_destroy_operations[service]` followed by
`self.pending_destroy_operations[service] = time()`.  The `del` is
reached exactly when the guard established the key is absent, so it
raises `KeyError`; the assignment line is modelled after the `del`
exactly as written. -/
def markPendingDestroy (now : Int) (registered : List String) (regKeys : List String)
    (pending : List (String × Int)) : Except PyError (List (String × Int)) :=
  match regKeys with
  | [] => .ok pending
  | svc :: rest =>
    if (lookupA pending svc).isNone && !(registered.contains svc) then
      match pyDelS pending svc with
      | .error e => .error e
      | .ok p' => markPendingDestroy now registered rest (setA p' svc now)
    else markPendingDestroy now registered rest pending

/-- `_reload_services()`: census scan followed by the pending-destroy
sweep over the (already updated) `known_event_services` keys. -/
def reloadServices (cfg : Cfg) (rematch : String → String → Bool) (bEvents : Bool)
    (pidLookup : String → Int) (cpidsLookup : String → List Int) (now : Int)
    (census : List SystemctlService) (reg : EventRegistry)
    (pending : List (String × Int)) : ReloadResult :=
  let p1 := reloadPhase1 cfg rematch bEvents pidLookup cpidsLookup census
    ⟨reg, pending, [], []⟩
  match markPendingDestroy now p1.registered (p1.reg.map Prod.fst) p1.pending with
  | .ok pending' => ⟨p1.reg, pending', p1.pubs, none⟩
  | .error e => ⟨p1.reg, p1.pending, p1.pubs, some e⟩

/-- One dequeued journal record (`json.loads` of an event line).  `UNIT`
and `MESSAGE` are always present on the enqueued records (the reader
already indexed `UNIT`, and journal records carry `MESSAGE`);
`JOB_TYPE`/`JOB_RESULT` are optional. -/
structure EventRecord where
  unit : String
  message : String
  jobType : Option String
  jobResult : Option String
deriving DecidableEq, Repr

/-- The `try` block of `_handle_events_queue` (lines 911-962): reload on
a `Reloading.` system message, then the job-type state machine.  The
reload call is abstracted as `reloadFn` (it shells out to the Service
Lister); `_pid_for_service` is the external `pidLookup`.  Errors are
Python exceptions raised inside the guarded block. -/
def handleEventTry (reloadFn : EventRegistry → Except PyError EventRegistry)
    (pidLookup : String → Int) (reg : EventRegistry) (ev : EventRecord) :
    Except PyError EventRegistry :=
  let afterReload : Except PyError EventRegistry :=
    if ev.message = "Reloading." then reloadFn reg else .ok reg
  match afterReload with
  | .error e => .error e
  | .ok reg =>
    match ev.jobType with
    | none => .ok reg
    | some jt =>
      if jt = "start" ∧ ev.jobResult.isSome then
        match lookupA reg ev.unit with
        | none => .error (.keyError ev.unit)
        | some e => .ok (setA reg ev.unit
            { e with
              status := if ev.jobResult = some "done" then "running" else "failed",
              state := "on",
              pid := pidLookup ev.unit })
      else if jt = "stop" ∧ ev.jobResult.isSome then
        match lookupA reg ev.unit with
        | none => .error (.keyError ev.unit)
        | some e => .ok (setA reg ev.unit
            { e with
              status := if ev.jobResult = some "done" then "exited" else "failed",
              state := "off" })
      else if jt = "restart" ∧ ev.jobResult.isSome then
        match lookupA reg ev.unit with
        | none => .error (.keyError ev.unit)
        | some e => .ok (setA reg ev.unit
            { e with
              status := if ev.jobResult = some "done" then "exited" else "failed",
              state := "off" })
      else .ok reg

/-- `_handle_events_queue` for one dequeued record (lines 909-976): the
guarded interpretation block, whose Python exceptions are wrapped into
`Systemctl2MqttEventsException`, followed by the republish of
`known_event_services[service]` to the events topic — which sits
*outside* the `try`, so a `KeyError` there escapes untyped. -/
def handleEventRecord (reloadFn : EventRegistry → Except PyError EventRegistry)
    (pidLookup : String → Int) (cfg : Cfg) (reg : EventRegistry) (ev : EventRecord) :
    Except AppError (EventRegistry × List Publish) :=
  match handleEventTry reloadFn pidLookup reg ev with
  | .error _ => .error (.events "Error parsing line")
  | .ok reg' =>
    match lookupA reg' ev.unit with
    | none => .error (.untyped (.keyError ev.unit))
    | some e' => .ok (reg', [⟨eventsTopicFor cfg ev.unit, .eventJson e', true⟩])

/-- The registry after one tick's event processing, as seen by the next
tick: on an exception the loop continues with the registry as the failed
handler left it (for the error cases reachable here — unknown unit, or a
failing reload on a `Reloading.` message before any mutation — that is
the unmodified registry). -/
def evStep (reloadFn : EventRegistry → Except PyError EventRegistry)
    (pidLookup : String → Int) (cfg : Cfg) (reg : EventRegistry)
    (ev : EventRecord) : EventRegistry :=
  match handleEventRecord reloadFn pidLookup cfg reg ev with
  | .ok (reg', _) => reg'
  | .error _ => reg

/-- Event processing over a sequence of dequeued records, one per tick. -/
def runEvents (reloadFn : EventRegistry → Except PyError EventRegistry)
    (pidLookup : String → Int) (cfg : Cfg) (reg : EventRegistry)
    (evs : List EventRecord) : EventRegistry :=
  match evs with
  | [] => reg
  | ev :: rest => runEvents reloadFn pidLookup cfg (evStep reloadFn pidLookup cfg reg ev) rest

/-- `datetime.datetime(2020, 1, 1)` — the sentinel "never sampled"
timestamp seeded for the first sighting of a (service, pid) — as epoch
seconds (2020-01-01T00:00:00Z). -/
def sentinelLast : Int := 1577836800

/-- The mutable stats state of `Systemctl2Mqtt`:
`known_stat_services` (service → pid → last accepted sample time),
`last_stat_services` (service → last rollup; `none` models the freshly
seeded empty dict `{}`, which is falsy), and `known_event_services`
(mutated by the publish phase, which re-resolves child pids). -/
structure StatsState where
  knownStat : List (String × List (Int × Int))
  lastStat : List (String × Option SStats)
  reg : EventRegistry
deriving DecidableEq, Repr

/-- Outcome of `_handle_stats_queue` for one row: the state as the
handler leaves it (partial mutations before an exception persist, as on
`self` in Python), the publications, and the raised exception if any. -/
structure StatsStep where
  state : StatsState
  pubs : List Publish
  err : Option AppError
deriving DecidableEq, Repr

/-- The conditional expression
`last_stat_services[service]["pid_stats"] if last_stat_services[service] else {}`:
a freshly seeded `{}` (modelled `none`) is falsy and contributes an empty
pid map, otherwise the stored rollup's pid map is reused. -/
def truthyPidStats (prev : Option SStats) : List (Int × PStats) :=
  match prev with
  | some s => s.pid_stats
  | none => []

/-- Total cpu of a pid→stats map, as accumulated by the
`for pid_stat in service_stats["pid_stats"].values()` loop. -/
def sumCpu (l : List (Int × PStats)) : ℚ :=
  l.foldl (fun acc p => acc + p.2.cpu) 0

/-- Total memory of a pid→stats map (same loop as `sumCpu`). -/
def sumMem (l : List (Int × PStats)) : ℚ :=
  l.foldl (fun acc p => acc + p.2.memory) 0

/-- `_handle_stats_queue` for one dequeued row (lines 1012-1119).  The
row is the whitespace-split `top` line with `[service, str(primary_pid)]`
appended by the reader.  Steps: parse `pid = int(stat[0])`,
`ppid = int(stat[-1])`, `service = stat[-2]`; seed the per-service maps
and the per-pid sentinel timestamp; accept the sample iff the last
accepted time is at most `now - stats_record_seconds`, in which case the
pid entry is overwritten and the totals recomputed as sums; exceptions in
the guarded block become `Systemctl2MqttStatsException`.  When the row is
the primary pid's, re-resolve child pids into the registry (an unknown
service raises an untyped `KeyError` here, outside the guard), prune
entries that are neither the primary pid nor a current child, and publish
the rollup unretained. -/
def handleStatRow (cfg : Cfg) (cpidsLookup : String → List Int) (now : Int)
    (st : StatsState) (row : List String) : StatsStep :=
  if row.isEmpty then ⟨st, [], none⟩
  else
    match (pyIdx row 0).bind pyInt?, (pyIdx row (-1)).bind pyInt?, pyIdx row (-2) with
    | some pid, some ppid, some service =>
      let knownStat1 :=
        if (lookupA st.knownStat service).isSome then st.knownStat
        else setA st.knownStat service []
      let lastStat1 :=
        if (lookupA st.knownStat service).isSome then st.lastStat
        else setA st.lastStat service none
      let m := (lookupA knownStat1 service).getD []
      let pidDate := (lookupA m pid).getD sentinelLast
      if pidDate ≤ now - cfg.statsRecordSeconds then
        let sendMqtt := ppid == pid
        let knownStat3 := setA knownStat1 service (setA m pid now)
        match (pyIdx row 8).bind pyFloat?, (pyIdx row 5).bind pyFloat? with
        | some cpu, some mem =>
          let pidStats : PStats := ⟨pid, cpu, mem / 1024⟩
          match lookupA lastStat1 service with
          | none => ⟨⟨knownStat3, lastStat1, st.reg⟩, [], some (.stats "Error parsing line")⟩
          | some prev =>
            let newPids := setA (truthyPidStats prev) pid pidStats
            let agg : SStats := ⟨service, cfg.hostname, sumCpu newPids, sumMem newPids, newPids⟩
            let lastStat2 := setA lastStat1 service (some agg)
            let st2 : StatsState := ⟨knownStat3, lastStat2, st.reg⟩
            if sendMqtt then
              let cpids := cpidsLookup service
              match lookupA st.reg service with
              | none => ⟨st2, [], some (.untyped (.keyError service))⟩
              | some re =>
                let reg2 := setA st.reg service { re with cpids := cpids }
                let prunedPids := newPids.filter (fun p => p.1 == ppid || cpids.contains p.1)
                let agg2 : SStats := { agg with pid_stats := prunedPids }
                let lastStat3 := setA lastStat2 service (some agg2)
                ⟨⟨knownStat3, lastStat3, reg2⟩,
                 [⟨statsTopicFor cfg service, .statsJson agg2, false⟩], none⟩
            else ⟨st2, [], none⟩
        | _, _ => ⟨⟨knownStat3, lastStat1, st.reg⟩, [], some (.stats "Error parsing line")⟩
      else
        let knownStat2 :=
          if (lookupA m pid).isSome then knownStat1
          else setA knownStat1 service (setA m pid sentinelLast)
        ⟨⟨knownStat2, lastStat1, st.reg⟩, [], none⟩
    | _, _, _ => ⟨st, [], some (.stats "Error parsing line")⟩

/-- The transition table of spec §4.4 for actionable event records, as a
function of job type and job result: `start` → `running`/`failed` with
state `on` and a re-resolved primary pid; `stop` and `restart` →
`exited`/`failed` with state `off`. -/
def eventTable (pidLookup : String → Int) (unit : String) (e : ServiceEvent)
    (jt jr : String) : ServiceEvent :=
  { e with
    status :=
      if jt = "start" then (if jr = "done" then "running" else "failed")
      else (if jr = "done" then "exited" else "failed"),
    state := if jt = "start" then "on" else "off",
    pid := if jt = "start" then pidLookup unit else e.pid }

/-- Whether a dequeued record is an actionable event for `svc`: right
unit, a job result present, and one of the three handled job types. -/
def isActionable (svc : String) (ev : EventRecord) : Bool :=
  ev.unit == svc && ev.jobResult.isSome &&
    (ev.jobType == some "start" || ev.jobType == some "stop" || ev.jobType == some "restart")

/-- The most recent actionable event for `svc` in a processing sequence
(`none` when there is none). -/
def lastActionable (svc : String) (evs : List EventRecord) : Option EventRecord :=
  match evs with
  | [] => none
  | ev :: rest =>
    match lastActionable svc rest with
    | some e => some e
    | none => if isActionable svc ev then some ev else none

/-- A concrete configuration for witnesses and counterexamples (the
default prefixes of `const.py`, host label `host`, empty filter lists,
default TTL and sampling interval). -/
def cfg0 : Cfg := ⟨"homeassistant", "systemctl", "host", [], [], 86400, 30⟩

/-- A concrete registered service entry. -/
def e0 : ServiceEvent := ⟨"foo.service", "desc", 100, [], "running", "on"⟩

/-- A registry holding exactly `e0`. -/
def reg0 : EventRegistry := [("foo.service", e0)]

/-- A reload collaborator that returns the registry unchanged (never
invoked in the scenarios below, whose messages are not `Reloading.`). -/
def rlNoop : EventRegistry → Except PyError EventRegistry := fun r => .ok r

/-- A concrete `_pid_for_service` collaborator. -/
def pl0 : String → Int := fun _ => 101

/-- A concrete `_child_pids_for_service` collaborator. -/
def cpl0 : String → List Int := fun _ => []

/-- A concrete `top` row for pid 736 of `foo.service` (primary pid 736),
with RES column `19456` and %CPU column `2`. -/
def row736 : List String :=
  ["736", "root", "20", "0", "259264", "19456", "5120", "S", "2", "1", "7:30.00",
   "python", "foo.service", "736"]

/-- The same row with the RES column printed by `top` with a size
suffix, as happens for resident sizes at or above 1000 MiB. -/
def row736g : List String :=
  ["736", "root", "20", "0", "259264", "1.5g", "5120", "S", "2", "1", "7:30.00",
   "python", "foo.service", "736"]

/-- A stats state in which pid 736 of `foo.service` was last sampled at
time 1600000000 and the rollup slot is freshly seeded (`{}`). -/
def st6 : StatsState :=
  ⟨[("foo.service", [(736, 1600000000)])], [("foo.service", none)], reg0⟩

/-- A child-pid row: pid 736 belongs to `foo.service` whose registered
primary pid is 999. -/
def row736c : List String :=
  ["736", "root", "20", "0", "259264", "19456", "5120", "S", "2", "1", "7:30.00",
   "python", "foo.service", "999"]


theorem lookupA_setA_self [DecidableEq κ] {m : List (κ × α)} {k : κ} {v : α} :
    lookupA (setA m k v) k = some v := by
  induction m with
  | nil => simp [setA, lookupA]
  | cons p rest ih =>
    obtain ⟨k', v'⟩ := p
    by_cases h : k' = k
    · simp [setA, h, lookupA]
    · simp [setA, h, lookupA, ih]

theorem lookupA_setA_ne [DecidableEq κ] {m : List (κ × α)} {k k' : κ} {v : α}
    (h : k' ≠ k) : lookupA (setA m k v) k' = lookupA m k' := by
  induction m with
  | nil =>
    have hk : ¬k = k' := fun hh => h hh.symm
    simp [setA, lookupA, hk]
  | cons p rest ih =>
    obtain ⟨k₀, v₀⟩ := p
    by_cases h0 : k₀ = k
    · subst h0
      have hk : ¬k₀ = k' := fun hh => h hh.symm
      simp [setA, lookupA, hk]
    · simp [setA, h0, lookupA, ih]

/-- C5.  For every service name s, whitelist and blacklist, filter(s) is
true iff (the whitelist is empty or some whitelist pattern matches s) and
no blacklist pattern matches s, where a pattern matches s iff s equals
the pattern, or s equals pattern + ".service", or the pattern compiled as
a regular expression matches s; a blacklist match overrides any whitelist
match.  (`matchService` is exactly that disjunction, with the regex
engine abstract; the equation states the filter's boolean structure.) -/
theorem claim5_filter_iff (rematch : String → String → Bool)
    (wl bl : List String) (s : String) :
    filterService rematch wl bl s =
      ((wl.isEmpty || wl.any fun w => matchService rematch s w) &&
        !(bl.any fun b => matchService rematch s b)) := by
  cases wl with
  | nil =>
    cases hb : bl.any fun b => matchService rematch s b <;>
      simp [filterService, hb]
  | cons w ws =>
    cases ha : (w :: ws).any fun x => matchService rematch s x <;>
    cases hb : bl.any fun b => matchService rematch s b <;>
      simp [filterService, ha, hb]

/-- C3.  With one known service (`foo.service`), an empty census and an
empty pending-destroy map, `_reload_services` raises `KeyError` from
`del self.pending_destroy_operations[service]` — which line 617 executes
exactly when the guard has just established the key is absent — instead
of marking the service pending-destroy; the pending map stays empty. -/
theorem claim3_sweep_keyerror :
    reloadServices cfg0 (fun _ _ => false) true pl0 cpl0 1700000000 [] reg0 [] =
      ⟨reg0, [], [], some (.keyError "foo.service")⟩ := by decide

/-- C9.  A dequeued record for a unit absent from the registry and
carrying no job fields is interpreted without error ("skip line"), but
the republish of `known_event_services[service]` after the `try` block
raises a `KeyError` that escapes `_handle_events_queue` untyped — not as
`Systemctl2MqttEventsException`. -/
theorem claim9_untyped_escape :
    handleEventRecord rlNoop pl0 cfg0 [] ⟨"ghost.service", "hello", none, none⟩ =
      .error (.untyped (.keyError "ghost.service")) := by decide

/-- C10.  The handler records the RES column via `float(stat[5]) / 1024`
without the k/m/g/t suffix multipliers: on a row whose RES token is
`1.5g` it raises `Systemctl2MqttStatsException` and the sample is lost,
whereas `helpers.parse_top_size` — defined for exactly this purpose and
never called — parses it to 1.5·1024² kilobytes. -/
theorem claim10_suffix_unparsed :
    (handleStatRow cfg0 cpl0 1700000000 ⟨[], [], reg0⟩ row736g).err =
        some (.stats "Error parsing line")
    ∧ parse_top_size "1.5g" = some (1572864 : ℚ) := by
  refine ⟨by decide, ?_⟩
  rw [show parse_top_size "1.5g" = some (((1 : ℚ) + 5 / 10 ^ 1) * 1024 ^ 2) from rfl]
  norm_num

theorem handleEventRecord_actionable
    (reloadFn : EventRegistry → Except PyError EventRegistry)
    (pidLookup : String → Int) (cfg : Cfg) (reg : EventRegistry)
    (ev : EventRecord) (e : ServiceEvent) (jt jr : String)
    (hknown : lookupA reg ev.unit = some e)
    (hmsg : ev.message ≠ "Reloading.")
    (hjt : ev.jobType = some jt) (hjr : ev.jobResult = some jr)
    (ht : jt = "start" ∨ jt = "stop" ∨ jt = "restart") :
    handleEventRecord reloadFn pidLookup cfg reg ev =
      .ok (setA reg ev.unit (eventTable pidLookup ev.unit e jt jr),
           [⟨eventsTopicFor cfg ev.unit,
             .eventJson (eventTable pidLookup ev.unit e jt jr), true⟩]) := by
  unfold handleEventRecord handleEventTry
  rcases ht with h | h | h <;> subst h <;>
    simp [hmsg, hjt, hjr, hknown, eventTable, lookupA_setA_self]

/-- C1.  A dequeued record with a job type in {start, stop, restart} and
a job result, for a service known to the Registry, updates that entry per
the transition table `eventTable` — start/done → running/on, start/other
→ failed/on, stop/done → exited/off, stop/other → failed/off,
restart/done → exited/off, restart/other → failed/off, with a start
additionally re-resolving the primary pid — and republishes exactly the
updated `ServiceEvent` retained to that service's events topic.  `setA`
touches no other key (`lookupA_setA_ne`). -/
theorem claim1_transition
    (reloadFn : EventRegistry → Except PyError EventRegistry)
    (pidLookup : String → Int) (cfg : Cfg) (reg : EventRegistry)
    (ev : EventRecord) (e : ServiceEvent) (jt jr : String)
    (hknown : lookupA reg ev.unit = some e)
    (hmsg : ev.message ≠ "Reloading.")
    (hjt : ev.jobType = some jt) (hjr : ev.jobResult = some jr)
    (ht : jt = "start" ∨ jt = "stop" ∨ jt = "restart") :
    handleEventRecord reloadFn pidLookup cfg reg ev =
      .ok (setA reg ev.unit (eventTable pidLookup ev.unit e jt jr),
           [⟨eventsTopicFor cfg ev.unit,
             .eventJson (eventTable pidLookup ev.unit e jt jr), true⟩]) :=
  handleEventRecord_actionable reloadFn pidLookup cfg reg ev e jt jr hknown hmsg hjt hjr ht

theorem claim1_transition_witness :
    handleEventRecord rlNoop pl0 cfg0 reg0 ⟨"foo.service", "msg", some "start", some "done"⟩ =
      .ok (setA reg0 "foo.service" (eventTable pl0 "foo.service" e0 "start" "done"),
           [⟨eventsTopicFor cfg0 "foo.service",
             .eventJson (eventTable pl0 "foo.service" e0 "start" "done"), true⟩]) :=
  claim1_transition rlNoop pl0 cfg0 reg0 ⟨"foo.service", "msg", some "start", some "done"⟩
    e0 "start" "done" (by decide) (by decide) rfl rfl (Or.inl rfl)

/-- C6.  For a well-formed stats row for a (service, pid) already seen
(its per-pid reference `m` exists): if the last accepted sample is
younger than `stats_record_seconds`, the row is discarded — the state is
unchanged except that a first sighting of the pid would have seeded the
sentinel — and no publish or error occurs; if it is at least the interval
old (`last ≤ now − interval`, equality included), the sample is accepted:
the pid's last-sample time becomes `now`, the pid's entry in the rollup
is overwritten, and the service totals are recomputed as the sums over
all current per-pid entries (`sumCpu`/`sumMem` over the updated map) —
not incremented.  A fresh (service, pid) enters with `lookupA m pid =
none`, so the compared time is the 2020-01-01 sentinel and the first
sample is accepted for any realistic clock.  (Stated for a child-pid row,
`ppid ≠ pid`; the primary-pid row additionally publishes, see the
publish-gate theorem.) -/
theorem claim6_sampling_window (cfg : Cfg) (cpl : String → List Int) (now : Int)
    (st : StatsState) (row : List String) (pid ppid : Int) (service : String)
    (cpu mem : ℚ) (m : List (Int × Int)) (prev : Option SStats)
    (hne : row.isEmpty = false)
    (h0 : (pyIdx row 0).bind pyInt? = some pid)
    (h1 : (pyIdx row (-1)).bind pyInt? = some ppid)
    (h2 : pyIdx row (-2) = some service)
    (h8 : (pyIdx row 8).bind pyFloat? = some cpu)
    (h5 : (pyIdx row 5).bind pyFloat? = some mem)
    (hm : lookupA st.knownStat service = some m)
    (hl : lookupA st.lastStat service = some prev)
    (hppid : (ppid == pid) = false) :
    handleStatRow cfg cpl now st row =
      if (lookupA m pid).getD sentinelLast ≤ now - cfg.statsRecordSeconds then
        ⟨⟨setA st.knownStat service (setA m pid now),
          setA st.lastStat service (some
            ⟨service, cfg.hostname,
             sumCpu (setA (truthyPidStats prev) pid ⟨pid, cpu, mem / 1024⟩),
             sumMem (setA (truthyPidStats prev) pid ⟨pid, cpu, mem / 1024⟩),
             setA (truthyPidStats prev) pid ⟨pid, cpu, mem / 1024⟩⟩),
          st.reg⟩, [], none⟩
      else
        ⟨⟨(if (lookupA m pid).isSome then st.knownStat
           else setA st.knownStat service (setA m pid sentinelLast)),
          st.lastStat, st.reg⟩, [], none⟩ := by
  simp only [handleStatRow, hne, Bool.false_eq_true, if_false, h0, h1, h2, h8, h5, hm,
    Option.isSome_some, if_true, Option.getD_some, hl, hppid]

theorem claim6_sampling_window_witness :
    handleStatRow cfg0 cpl0 1700000000 st6 row736c =
      if (lookupA [(736, 1600000000)] 736).getD sentinelLast ≤
          1700000000 - cfg0.statsRecordSeconds then
        ⟨⟨setA st6.knownStat "foo.service" (setA [(736, 1600000000)] 736 1700000000),
          setA st6.lastStat "foo.service" (some
            ⟨"foo.service", cfg0.hostname,
             sumCpu (setA (truthyPidStats none) 736 ⟨736, 2, 19456 / 1024⟩),
             sumMem (setA (truthyPidStats none) 736 ⟨736, 2, 19456 / 1024⟩),
             setA (truthyPidStats none) 736 ⟨736, 2, 19456 / 1024⟩⟩),
          st6.reg⟩, [], none⟩
      else
        ⟨⟨(if (lookupA [(736, 1600000000)] 736).isSome then st6.knownStat
           else setA st6.knownStat "foo.service" (setA [(736, 1600000000)] 736 sentinelLast)),
          st6.lastStat, st6.reg⟩, [], none⟩ :=
  claim6_sampling_window cfg0 cpl0 1700000000 st6 row736c 736 999 "foo.service" 2 19456
    [(736, 1600000000)] none (by decide) (by decide) (by decide) (by decide) (by decide)
    (by decide) (by decide) (by decide) (by decide)

/-- C7.  For a well-formed stats row of a known service, a rollup is
published (unretained, to the service's stats topic) exactly when the
sample is accepted by the sampling window *and* the row's pid equals the
service's registered primary pid: discarded samples and accepted
child-pid samples produce no publication.  The published rollup is the
just-computed aggregate with per-pid entries pruned to the primary pid
and the freshly re-resolved child pids (totals unchanged by the prune). -/
theorem claim7_publish_gate (cfg : Cfg) (cpl : String → List Int) (now : Int)
    (st : StatsState) (row : List String) (pid ppid : Int) (service : String)
    (cpu mem : ℚ) (m : List (Int × Int)) (prev : Option SStats) (re : ServiceEvent)
    (hne : row.isEmpty = false)
    (h0 : (pyIdx row 0).bind pyInt? = some pid)
    (h1 : (pyIdx row (-1)).bind pyInt? = some ppid)
    (h2 : pyIdx row (-2) = some service)
    (h8 : (pyIdx row 8).bind pyFloat? = some cpu)
    (h5 : (pyIdx row 5).bind pyFloat? = some mem)
    (hm : lookupA st.knownStat service = some m)
    (hl : lookupA st.lastStat service = some prev)
    (hreg : lookupA st.reg service = some re) :
    (handleStatRow cfg cpl now st row).pubs =
      if (lookupA m pid).getD sentinelLast ≤ now - cfg.statsRecordSeconds ∧ ppid = pid then
        [⟨statsTopicFor cfg service,
          .statsJson ⟨service, cfg.hostname,
            sumCpu (setA (truthyPidStats prev) pid ⟨pid, cpu, mem / 1024⟩),
            sumMem (setA (truthyPidStats prev) pid ⟨pid, cpu, mem / 1024⟩),
            (setA (truthyPidStats prev) pid ⟨pid, cpu, mem / 1024⟩).filter
              (fun q => q.1 == ppid || (cpl service).contains q.1)⟩, false⟩]
      else [] := by
  by_cases hacc : (lookupA m pid).getD sentinelLast ≤ now - cfg.statsRecordSeconds
  · by_cases hp : ppid = pid
    · simp only [handleStatRow, hne, Bool.false_eq_true, if_false, h0, h1, h2, h8, h5,
        hm, Option.isSome_some, if_true, Option.getD_some, hl, hreg, hacc, hp,
        beq_self_eq_true, if_pos (And.intro hacc rfl)]
      simp
    · have hb : (ppid == pid) = false := by simpa using hp
      simp only [handleStatRow, hne, Bool.false_eq_true, if_false, h0, h1, h2, h8, h5,
        hm, Option.isSome_some, if_true, Option.getD_some, hl, hacc, hb,
        if_neg (fun hc : _ ∧ ppid = pid => hp hc.2)]
  · simp only [handleStatRow, hne, Bool.false_eq_true, if_false, h0, h1, h2, h8, h5,
      hm, Option.isSome_some, if_true, Option.getD_some, hl, hacc,
      if_neg (fun hc : _ ∧ ppid = pid => hacc hc.1)]
    simp [hacc]

theorem claim7_publish_gate_witness :
    (handleStatRow cfg0 cpl0 1700000000 st6 row736).pubs =
      if (lookupA [(736, 1600000000)] 736).getD sentinelLast ≤
            1700000000 - cfg0.statsRecordSeconds ∧ (736 : Int) = 736 then
        [⟨statsTopicFor cfg0 "foo.service",
          .statsJson ⟨"foo.service", cfg0.hostname,
            sumCpu (setA (truthyPidStats none) 736 ⟨736, 2, 19456 / 1024⟩),
            sumMem (setA (truthyPidStats none) 736 ⟨736, 2, 19456 / 1024⟩),
            (setA (truthyPidStats none) 736 ⟨736, 2, 19456 / 1024⟩).filter
              (fun q => q.1 == 736 || (cpl0 "foo.service").contains q.1)⟩, false⟩]
      else [] :=
  claim7_publish_gate cfg0 cpl0 1700000000 st6 row736 736 736 "foo.service" 2 19456
    [(736, 1600000000)] none e0 (by decide) (by decide) (by decide) (by decide)
    (by decide) (by decide) (by decide) (by decide) (by decide)

theorem evStep_lookup_other
    (reloadFn : EventRegistry → Except PyError EventRegistry)
    (pidLookup : String → Int) (cfg : Cfg) (reg : EventRegistry)
    (ev : EventRecord) (svc : String)
    (hu : ev.unit ≠ svc) (hmsg : ev.message ≠ "Reloading.") :
    lookupA (evStep reloadFn pidLookup cfg reg ev) svc = lookupA reg svc := by
  have hsvc : svc ≠ ev.unit := Ne.symm hu
  unfold evStep handleEventRecord handleEventTry
  rcases hjt : ev.jobType with _ | jt
  · cases hlk : lookupA reg ev.unit <;> simp [hmsg, hjt, hlk]
  · by_cases h1 : jt = "start" ∧ ev.jobResult.isSome
    · cases hlk : lookupA reg ev.unit with
      | none => simp [hmsg, hjt, h1, hlk]
      | some e1 => simp [hmsg, hjt, h1, hlk, lookupA_setA_self, lookupA_setA_ne hsvc]
    · by_cases h2 : jt = "stop" ∧ ev.jobResult.isSome
      · cases hlk : lookupA reg ev.unit with
        | none => simp [hmsg, hjt, h1, h2, hlk]
        | some e1 => simp [hmsg, hjt, h1, h2, hlk, lookupA_setA_self, lookupA_setA_ne hsvc]
      · by_cases h3 : jt = "restart" ∧ ev.jobResult.isSome
        · cases hlk : lookupA reg ev.unit with
          | none => simp [hmsg, hjt, h1, h2, h3, hlk]
          | some e1 =>
            simp [hmsg, hjt, h1, h2, h3, hlk, lookupA_setA_self, lookupA_setA_ne hsvc]
        · cases hlk : lookupA reg ev.unit <;> simp [hmsg, hjt, h1, h2, h3, hlk]

theorem evStep_inactionable
    (reloadFn : EventRegistry → Except PyError EventRegistry)
    (pidLookup : String → Int) (cfg : Cfg) (reg : EventRegistry)
    (ev : EventRecord) (svc : String) (e : ServiceEvent)
    (hu : ev.unit = svc) (hknown : lookupA reg svc = some e)
    (hmsg : ev.message ≠ "Reloading.")
    (hna : isActionable svc ev = false) :
    evStep reloadFn pidLookup cfg reg ev = reg := by
  subst hu
  simp only [isActionable, beq_self_eq_true, Bool.true_and, Bool.and_eq_false_iff] at hna
  unfold evStep handleEventRecord handleEventTry
  rcases hjt : ev.jobType with _ | jt
  · simp [hmsg, hjt, hknown]
  · rcases hjr : ev.jobResult with _ | jr
    · simp [hmsg, hjt, hjr, hknown]
    · rw [hjr] at hna
      rcases hna with hna | hna
      · simp at hna
      · rw [hjt] at hna
        simp only [Bool.or_eq_false_iff, beq_eq_false_iff_ne, ne_eq,
          Option.some.injEq] at hna
        obtain ⟨⟨hs1, hs2⟩, hs3⟩ := hna
        simp [hmsg, hjt, hjr, hknown, hs1, hs2, hs3]

theorem evStep_actionable
    (reloadFn : EventRegistry → Except PyError EventRegistry)
    (pidLookup : String → Int) (cfg : Cfg) (reg : EventRegistry)
    (ev : EventRecord) (svc : String) (e : ServiceEvent) (jt jr : String)
    (hu : ev.unit = svc) (hknown : lookupA reg svc = some e)
    (hmsg : ev.message ≠ "Reloading.")
    (hjt : ev.jobType = some jt) (hjr : ev.jobResult = some jr)
    (ht : jt = "start" ∨ jt = "stop" ∨ jt = "restart") :
    evStep reloadFn pidLookup cfg reg ev = setA reg svc (eventTable pidLookup svc e jt jr) := by
  subst hu
  unfold evStep
  rw [handleEventRecord_actionable reloadFn pidLookup cfg reg ev e jt jr hknown hmsg hjt hjr ht]

theorem isActionable_elim {svc : String} {ev : EventRecord}
    (h : isActionable svc ev = true) :
    ev.unit = svc ∧ ∃ jt jr, ev.jobType = some jt ∧ ev.jobResult = some jr ∧
      (jt = "start" ∨ jt = "stop" ∨ jt = "restart") := by
  simp only [isActionable, Bool.and_eq_true, Bool.or_eq_true, beq_iff_eq,
    Option.isSome_iff_exists] at h
  obtain ⟨⟨hu, jr, hjr⟩, hty⟩ := h
  refine ⟨hu, ?_⟩
  rcases hty with (h | h) | h
  · exact ⟨"start", jr, h, hjr, Or.inl rfl⟩
  · exact ⟨"stop", jr, h, hjr, Or.inr (Or.inl rfl)⟩
  · exact ⟨"restart", jr, h, hjr, Or.inr (Or.inr rfl)⟩

theorem runEvents_state
    (reloadFn : EventRegistry → Except PyError EventRegistry)
    (pidLookup : String → Int) (cfg : Cfg) (evs : List EventRecord) (svc : String) :
    ∀ (reg : EventRegistry) (e : ServiceEvent),
      lookupA reg svc = some e →
      (∀ ev ∈ evs, ev.message ≠ "Reloading.") →
      ∃ e', lookupA (runEvents reloadFn pidLookup cfg reg evs) svc = some e' ∧
        (e'.state = "on" ↔
          (match lastActionable svc evs with
           | some ev => ev.jobType = some "start"
           | none => e.state = "on")) := by
  induction evs with
  | nil =>
    intro reg e hknown _
    exact ⟨e, hknown, by simp [lastActionable, runEvents]⟩
  | cons ev rest ih =>
    intro reg e hknown hnr
    have hmsg : ev.message ≠ "Reloading." := hnr ev (List.mem_cons_self _ _)
    have hnr' : ∀ x ∈ rest, x.message ≠ "Reloading." :=
      fun x hx => hnr x (List.mem_cons_of_mem _ hx)
    by_cases hu : ev.unit = svc
    · by_cases ha : isActionable svc ev = true
      · obtain ⟨_, jt, jr, hjt, hjr, ht⟩ := isActionable_elim ha
        have hstep := evStep_actionable reloadFn pidLookup cfg reg ev svc e jt jr
          hu hknown hmsg hjt hjr ht
        simp only [runEvents]
        rw [hstep]
        obtain ⟨e', h1, h2⟩ := ih (setA reg svc (eventTable pidLookup svc e jt jr))
          (eventTable pidLookup svc e jt jr) lookupA_setA_self hnr'
        refine ⟨e', h1, ?_⟩
        rw [h2]
        cases hla : lastActionable svc rest with
        | some x => simp [lastActionable, hla]
        | none =>
          simp only [lastActionable, hla, ha, if_true]
          rw [hjt]
          rcases ht with h | h | h <;> subst h <;> simp [eventTable]
      · have haf : isActionable svc ev = false := by simpa using ha
        have hstep := evStep_inactionable reloadFn pidLookup cfg reg ev svc e hu hknown hmsg haf
        simp only [runEvents]
        rw [hstep]
        obtain ⟨e', h1, h2⟩ := ih reg e hknown hnr'
        refine ⟨e', h1, ?_⟩
        rw [h2]
        cases hla : lastActionable svc rest with
        | some x => simp [lastActionable, hla]
        | none => simp [lastActionable, hla, haf]
    · have hstep := evStep_lookup_other reloadFn pidLookup cfg reg ev svc hu hmsg
      simp only [runEvents]
      obtain ⟨e', h1, h2⟩ := ih (evStep reloadFn pidLookup cfg reg ev) e
        (by rw [hstep]; exact hknown) hnr'
      refine ⟨e', h1, ?_⟩
      rw [h2]
      have haf : isActionable svc ev = false := by
        simp [isActionable, fun hh : ev.unit = svc => hu hh]
      cases hla : lastActionable svc rest with
      | some x => simp [lastActionable, hla]
      | none => simp [lastActionable, hla, haf]

/-- C8 (amended).  For any service known to the Registry, over any
sequence of processed event records (none of them a `Reloading.` system
message), the service stays in the Registry and its `state` is `on` iff
the most recently accepted actionable event (a start/stop/restart record
carrying a job result) was a *start* — irrespective of the job result,
which only determines `status` — or, if no actionable event occurred,
iff its initial state was `on`. -/
theorem claim8_amended
    (reloadFn : EventRegistry → Except PyError EventRegistry)
    (pidLookup : String → Int) (cfg : Cfg) (reg : EventRegistry)
    (evs : List EventRecord) (svc : String) (e : ServiceEvent)
    (hknown : lookupA reg svc = some e)
    (hnr : ∀ ev ∈ evs, ev.message ≠ "Reloading.") :
    (lookupA (runEvents reloadFn pidLookup cfg reg evs) svc).isSome = true ∧
    ((lookupA (runEvents reloadFn pidLookup cfg reg evs) svc).map ServiceEvent.state =
        some "on" ↔
      (match lastActionable svc evs with
       | some ev => ev.jobType = some "start"
       | none => e.state = "on")) := by
  obtain ⟨e', h1, h2⟩ := runEvents_state reloadFn pidLookup cfg evs svc reg e hknown hnr
  rw [h1]
  exact ⟨rfl, by simpa using h2⟩

theorem claim8_amended_witness :
    (lookupA (runEvents rlNoop pl0 cfg0 reg0
        [⟨"foo.service", "m", some "restart", some "done"⟩]) "foo.service").isSome = true ∧
    ((lookupA (runEvents rlNoop pl0 cfg0 reg0
        [⟨"foo.service", "m", some "restart", some "done"⟩]) "foo.service").map
          ServiceEvent.state = some "on" ↔
      (some "restart" : Option String) = some "start") :=
  claim8_amended rlNoop pl0 cfg0 reg0
    [⟨"foo.service", "m", some "restart", some "done"⟩] "foo.service" e0
    (by decide) (by decide)

/-- C8 (counterexample).  Processing a single `start`/`failed` record for
the registered `foo.service` leaves `state = on` while `status = failed`:
the most recently accepted start/restart event did *not* result in
`status = running`, yet the state is `on` — refuting the claimed
invariant.  (`lastActionable` certifies that this record is the most
recent actionable one.) -/
theorem claim8_counterexample :
    lookupA (runEvents rlNoop pl0 cfg0 reg0
        [⟨"foo.service", "m", some "start", some "failed"⟩]) "foo.service" =
      some ⟨"foo.service", "desc", 101, [], "failed", "on"⟩
    ∧ lastActionable "foo.service" [⟨"foo.service", "m", some "start", some "failed"⟩] =
        some ⟨"foo.service", "m", some "start", some "failed"⟩ := by decide
